import Mathlib

/-
Verification of the dyslink command-line client (cmd/dyslink.go).

The CLI dispatches subcommands, validates their arguments, constructs
partial fan-state requests, and renders device state messages.  The
protocol library itself (device session, message transport) is external;
its pieces that the CLI touches (state struct, constants, temperature
conversion) are modelled here.  Handlers are embedded as pure functions
returning an Except value: an error value means the process printed the
error to stderr and exited with code 1 before any state was transmitted
(the handleError function in the source), while an ok value carries the
state delta submitted to the device session.
-/

namespace Dyslink

/-- Embedding of Go strconv.Atoi digit parsing: a non-empty all-digit
character list parses to its decimal value, anything else fails. -/
def parseDigits (cs : List Char) : Option Nat :=
  if cs.isEmpty then none
  else if cs.all Char.isDigit then
    some (cs.foldl (fun a c => a * 10 + (c.toNat - 48)) 0)
  else none

/-- Embedding of Go strconv.Atoi: optional sign followed by at least one
decimal digit; any other string is a parse error (modelled as none).
Lean integers are unbounded, so the 64-bit range error of Go is not
modelled; every claim only exercises small values, where the two agree. -/
def atoi (s : String) : Option Int :=
  match s.data with
  | [] => none
  | '+' :: rest => (parseDigits rest).map (fun n => (n : Int))
  | '-' :: rest => (parseDigits rest).map (fun n => -(n : Int))
  | cs => (parseDigits cs).map (fun n => (n : Int))

/-- Embedding of the value read by `voc, _ := strconv.Atoi(...)` in the
source: the error is discarded and the accompanying value is used, which
is 0 whenever parsing fails. -/
def atoiOrZero (s : String) : Int := (atoi s).getD 0

/-- Modelled from the spec: the external library constant dyslink.FanModeOn. -/
def FanModeOn : String := "FAN"

/-- Modelled from the spec: the external library constant dyslink.FanModeOff. -/
def FanModeOff : String := "OFF"

/-- Modelled from the spec: the external library constant dyslink.FanModeAuto. -/
def FanModeAuto : String := "AUTO"

/-- Modelled from the spec: the external library constant dyslink.OscillateOn. -/
def OscillateOn : String := "ON"

/-- Modelled from the spec: the external library constant dyslink.OscillateOff. -/
def OscillateOff : String := "OFF"

/-- Modelled from the spec: the external library constant dyslink.StandbyMonitorOn. -/
def StandbyMonitorOn : String := "ON"

/-- Modelled from the spec: the external library constant dyslink.StandbyMonitorOff. -/
def StandbyMonitorOff : String := "OFF"

/-- Modelled from the spec: the external library constant dyslink.FocusedModeOn. -/
def FocusedModeOn : String := "ON"

/-- Modelled from the spec: the external library constant dyslink.FocusedModeOff. -/
def FocusedModeOff : String := "OFF"

/-- Modelled from the spec: the external library constant dyslink.TypeModelN475. -/
def TypeModelN475 : String := "475"

/-- Modelled from the spec: the external library constant dyslink.TypeModelN469. -/
def TypeModelN469 : String := "469"

/-- Modelled from the spec: the external library constant dyslink.TypeModelN455. -/
def TypeModelN455 : String := "455"

/-- Modelled from the spec: the external library function
dyslink.ConvertTempFromFahr, converting a Fahrenheit temperature to the
device internal scale (tenths of Kelvin).  The exact formula lives in the
library, outside src; the claims only require that the heat target is the
decimal rendering of this conversion applied to the parsed input. -/
def ConvertTempFromFahr (f : Int) : Int := (f - 32) * 50 / 9 + 2732

/-- Modelled from the spec: the external library function
dyslink.ConvertTempToFahr, converting the device internal scale back to
Fahrenheit for display. -/
def ConvertTempToFahr (k : Int) : Int := (k - 2732) * 9 / 50 + 32

/-- Embedding of the external dyslink.FanState struct as used by the CLI:
a bag of optional string fields, each defaulting to the empty string,
where only non-empty fields represent a requested change. -/
structure FanState where
  FanMode : String := ""
  FanSpeed : String := ""
  Oscillate : String := ""
  StandbyMonitoring : String := ""
  FocusedMode : String := ""
  HeatMode : String := ""
  HeatTarget : String := ""
  ResetFilter : String := ""
  deriving Repr, DecidableEq

/-- The exposed fields of a FanState, paired with their names, in struct
order; used to state that a handler leaves unrelated fields empty. -/
def FanState.fieldList (s : FanState) : List (String × String) :=
  [("FanMode", s.FanMode), ("FanSpeed", s.FanSpeed),
   ("Oscillate", s.Oscillate), ("StandbyMonitoring", s.StandbyMonitoring),
   ("FocusedMode", s.FocusedMode), ("HeatMode", s.HeatMode),
   ("HeatTarget", s.HeatTarget), ("ResetFilter", s.ResetFilter)]

/-- Embedding of handleError as an exit code: a non-nil error exits the
process with code 1, otherwise execution continues (code 0). -/
def handlerExit : Except String FanState → Nat
  | .error _ => 1
  | .ok _ => 0

/-- The state delta s touches no field outside the allowed set: every
exposed field whose name is not in the allowed list holds the empty
string, so the device receives no spurious overwrite. -/
def onlyFieldsIn (s : FanState) (allowed : List String) : Prop :=
  ∀ p ∈ s.fieldList, p.1 ∉ allowed → p.2 = ""

/-- Embedding of the resetFilter handler: unconditionally submits a state
delta whose only set field is ResetFilter. -/
def resetFilter : Except String FanState :=
  .ok { ResetFilter := "RSTF" }

/-- Embedding of the setFanMode handler. -/
def setFanMode (fmode : String) : Except String FanState :=
  if fmode ≠ FanModeOn ∧ fmode ≠ FanModeOff ∧ fmode ≠ FanModeAuto then
    .error ("Invalid Fan mode " ++ fmode)
  else
    .ok { FanMode := fmode }

/-- Embedding of the setSpeed handler: parses its argument, rejects a
parse failure or a value outside 1 through 10, and otherwise submits a
delta carrying the original argument string as the fan speed. -/
def setSpeed (speed : String) : Except String FanState :=
  match atoi speed with
  | none => .error ("strconv.Atoi: parsing " ++ speed ++ ": invalid syntax")
  | some sval =>
    if sval < 1 ∨ sval > 10 then
      .error ("Invalid fan speed " ++ speed)
    else
      .ok { FanSpeed := speed }

/-- Embedding of the setOscillate handler. -/
def setOscillate (ostate : String) : Except String FanState :=
  if ostate ≠ OscillateOn ∧ ostate ≠ OscillateOff then
    .error ("Invalid oscillation state " ++ ostate)
  else
    .ok { Oscillate := ostate }

/-- Embedding of the setMonitor handler. -/
def setMonitor (mstate : String) : Except String FanState :=
  if mstate ≠ StandbyMonitorOn ∧ mstate ≠ StandbyMonitorOff then
    .error ("Invalid monitor state " ++ mstate)
  else
    .ok { StandbyMonitoring := mstate }

/-- Embedding of the setFocusedMode handler. -/
def setFocusedMode (fmode : String) : Except String FanState :=
  if fmode ≠ FocusedModeOn ∧ fmode ≠ FocusedModeOff then
    .error ("Invalid focused mode " ++ fmode)
  else
    .ok { FocusedMode := fmode }

/-- Embedding of the setTemp handler: a parse failure is rejected; the
value 0 submits a heat-off delta with no target; a value outside 33
through 99 is rejected; otherwise a heat-on delta carries the converted
target temperature. -/
def setTemp (temp : String) : Except String FanState :=
  match atoi temp with
  | none => .error ("strconv.Atoi: parsing " ++ temp ++ ": invalid syntax")
  | some sval =>
    if sval = 0 then
      .ok { HeatMode := "OFF" }
    else if sval < 33 ∨ sval > 99 then
      .error ("Invalid fan temp " ++ temp)
    else
      .ok { HeatMode := "HEAT",
            HeatTarget := toString (ConvertTempFromFahr sval) }

/-- Embedding of a Go reflect.Value as the renderer inspects it: one case
per kind group that isEmptyValue distinguishes.  Arrays, maps and slices
are represented by their length, pointers and interface values by whether
they are nil, and every remaining kind (struct, channel, function,
complex) by the catch-all case, for which isEmptyValue returns false. -/
inductive GoValue where
  | str : String → GoValue
  | collection : Nat → GoValue
  | int : Int → GoValue
  | uint : Nat → GoValue
  | float : ℚ → GoValue
  | boolean : Bool → GoValue
  | ptr : Bool → GoValue
  | opaque_kind : GoValue
  deriving Repr, DecidableEq

/-- Embedding of isEmptyValue: true exactly when the value is the zero
value of its kind (empty string or collection, zero number, false, nil
pointer or interface); other kinds are never considered empty. -/
def isEmptyValue : GoValue → Bool
  | .str s => s.length == 0
  | .collection n => n == 0
  | .int i => i == 0
  | .uint n => n == 0
  | .float q => q == 0
  | .boolean b => !b
  | .ptr isNil => isNil
  | .opaque_kind => false

/-- Fallback rendering of a field value, standing in for fmt %v.  For
strings this is the string itself, matching Go; the non-string cases are
placeholders since no claim depends on their exact text (pointer values
print a machine address, which is outside a shallow embedding). -/
def GoValue.render : GoValue → String
  | .str s => s
  | .int i => toString i
  | .uint n => toString n
  | .float q => toString q
  | .boolean b => if b then "true" else "false"
  | .ptr _ => "pointer"
  | .collection n => "collection:" ++ toString n
  | .opaque_kind => "value"

/-- The fixed scale constant in the filter-life computation: the raw
counter is divided by this value before being scaled to a percentage. -/
def filterLifeMax : Int := 4300

/-- Embedding of the filter-life display computation
math.Round((float64(v)/4300)*100), carried out over the rationals.  The
divisor is the constant filterLifeMax; since 100/4300 = 1/43 and 43 is
odd, the rounded quantity is never a half-integer, so rounding half up
agrees with math.Round on every input. -/
def filterLifePercent (v : Int) : Int :=
  round (((v : ℚ) / (filterLifeMax : ℚ)) * 100)

/-- Embedding of the per-field display rules of printStruct: the switch
on the struct field name.  The temperature, humidity and filter-life
branches assert the field to be a string in Go; in the library structs
these fields are always strings, and a non-string value falls back to
the default rendering here. -/
def formatField (name : String) (v : GoValue) : String :=
  if name = "Temperature" ∨ name = "HeatTarget" then
    match v with
    | .str s =>
      match atoi s with
      | some n => name ++ ": " ++ toString (ConvertTempToFahr n) ++ "°F"
      | none => name ++ ": " ++ s
    | _ => name ++ ": " ++ v.render
  else if name = "Humidity" then
    match v with
    | .str s =>
      match atoi s with
      | some n => name ++ ": " ++ toString n ++ "%"
      | none => name ++ ": " ++ s
    | _ => name ++ ": " ++ v.render
  else if name = "FilterLife" then
    match v with
    | .str s =>
      match atoi s with
      | some n => name ++ ": " ++ toString (filterLifePercent n) ++ "%"
      | none => name ++ ": " ++ s
    | _ => name ++ ": " ++ v.render
  else if name = "QualityTarget" then
    match v with
    | .str s =>
      let targetName :=
        if s = "0001" then "High"
        else if s = "0003" then "Normal"
        else if s = "0004" then "Low"
        else s
      name ++ ": " ++ targetName
    | _ => name ++ ": " ++ v.render
  else if name = "UnknownVact" then
    "VOC: " ++ v.render
  else
    name ++ ": " ++ v.render

/-- One iteration of the printStruct field loop: an empty value produces
no output line, any other value produces its formatted line. -/
def printField (name : String) (v : GoValue) : Option String :=
  if isEmptyValue v then none else some (formatField name v)

/-- Embedding of printStruct: walk the named fields in order, skipping
empty values and formatting the rest, yielding the output lines. -/
def printStruct (fields : List (String × GoValue)) : List String :=
  fields.filterMap (fun p => printField p.1 p.2)

/-- Modelled from the spec: the external dyslink.EnvironmentState struct,
restricted to the two sensor readings the air-quality estimate consumes
(the VOC reading, named UnknownVact in the library, and the particle
reading).  The remaining display-only fields are not needed by any claim. -/
structure EnvironmentState where
  UnknownVact : String := ""
  Particle : String := ""
  deriving Repr, DecidableEq

/-- The severity bucketing switch of printAirQualityEstimate: estimates
up to 3 are good, up to 6 fair, up to 8 poor, above 8 very poor. -/
def qualityLabel (est : Int) : String :=
  if est ≤ 3 then "good"
  else if est ≤ 6 then "fair"
  else if est ≤ 8 then "poor"
  else "very poor"

/-- Embedding of printAirQualityEstimate: both readings are parsed with
the error discarded (yielding 0 on failure), the estimate is the maximum
of the two, and the estimate is bucketed into four labels.  The returned
string is the printed line. -/
def printAirQualityEstimate (state : EnvironmentState) : String :=
  let voc := atoiOrZero state.UnknownVact
  let particle := atoiOrZero state.Particle
  let est := max voc particle
  "Air Quality Estimate: " ++ qualityLabel est

/-- The payload of a callback message, as printState dispatches on it: a
product state, an environment state, or any other message, each carrying
the named fields the renderer walks. -/
inductive DeviceMessage where
  | product : List (String × GoValue) → DeviceMessage
  | environment : EnvironmentState → DeviceMessage
  | other : List (String × GoValue) → DeviceMessage
  deriving Repr

/-- The field list the reflection walk sees for the modelled environment
state: its two string fields in struct order. -/
def EnvironmentState.goFields (e : EnvironmentState) : List (String × GoValue) :=
  [("UnknownVact", .str e.UnknownVact), ("Particle", .str e.Particle)]

/-- Embedding of printState: dispatch on the message type and render it,
producing the stdout lines. -/
def printState : DeviceMessage → List String
  | .product fields =>
    "Product State:" :: "--------------" :: printStruct fields
  | .environment e =>
    "Environment State:" :: "--------------" ::
      (printStruct e.goFields ++ [printAirQualityEstimate e])
  | .other fields =>
    "Message:" :: "--------------" :: printStruct fields

/-- Embedding of the external dyslink.MessageCallback: a payload paired
with an error value (none for a successful receipt). -/
structure MessageCallback where
  Error : Option String
  Message : DeviceMessage

/-- The observable outcome of the get-current-state handler: how many
requests it issued, how many messages it read from the callback channel,
the terminal error it surfaced through handleError (if any), and the
stdout lines it produced. -/
structure GetStateResult where
  requestsIssued : Nat
  msgsRead : Nat
  exitErr : Option String
  output : List String
  deriving Repr

/-- The message-reading loop of getState: read up to the remaining count
of messages from the channel, exiting through handleError at the first
message that carries an error, printing each successful message. -/
def getStateLoop (chan : Nat → MessageCallback) :
    Nat → Nat → Nat → List String → GetStateResult
  | _, 0, readSoFar, acc =>
    { requestsIssued := 1, msgsRead := readSoFar, exitErr := none,
      output := acc }
  | idx, remaining + 1, readSoFar, acc =>
    let msg := chan idx
    match msg.Error with
    | some e =>
      { requestsIssued := 1, msgsRead := readSoFar + 1, exitErr := some e,
        output := acc }
    | none =>
      getStateLoop chan (idx + 1) remaining (readSoFar + 1)
        (acc ++ printState msg.Message ++ [""])

/-- Embedding of the getState handler: issue one state request (whose
failure exits before any read), then read exactly two messages from the
callback channel, stopping at the first message-level error.  The channel
is modelled as the stream of messages it would deliver in order. -/
def getState (reqErr : Option String) (chan : Nat → MessageCallback) :
    GetStateResult :=
  match reqErr with
  | some e =>
    { requestsIssued := 1, msgsRead := 0, exitErr := some e, output := [] }
  | none => getStateLoop chan 0 2 0 []

/-- The observable outcome of the monitor loop over a finite prefix of
the callback channel: every message processed, stderr lines for message
errors, stdout lines for rendered states. -/
structure MonitorResult where
  processed : Nat
  stderrLines : List String
  stdoutLines : List String
  deriving Repr

/-- Embedding of the monitor receive loop: a message carrying an error is
logged to the error stream and the loop continues with the next message;
a successful message is rendered to stdout.  The loop itself never
terminates; this function gives its behaviour on any finite prefix of
the channel. -/
def monitor : List MessageCallback → MonitorResult
  | [] => { processed := 0, stderrLines := [], stdoutLines := [] }
  | msg :: rest =>
    let r := monitor rest
    match msg.Error with
    | some e =>
      { processed := r.processed + 1,
        stderrLines := ("error: " ++ e) :: "" :: r.stderrLines,
        stdoutLines := r.stdoutLines }
    | none =>
      { processed := r.processed + 1,
        stderrLines := r.stderrLines,
        stdoutLines := printState msg.Message ++ [""] ++ r.stdoutLines }

/-- The sentinel argument count marking a variadic command. -/
def variadic : Int := -1

/-- Embedding of a command descriptor: its description, required
positional-argument count (or the variadic sentinel), and whether a
device connection must be established before the handler runs.  The
handler function itself is identified by the command name at the
dispatch result. -/
structure Cmd where
  info : String
  nargs : Int
  connect : Bool
  deriving Repr, DecidableEq

/-- Embedding of the command registry: the static name-to-descriptor
table built at process start. -/
def cmds (name : String) : Option Cmd :=
  if name = "discover" then some ⟨"Find all Dyson Purifiers", 0, false⟩
  else if name = "bootstrap" then some ⟨"Bootstrap a new device", variadic, true⟩
  else if name = "set-fan-mode" then some ⟨"Set the mode of the fan", 1, true⟩
  else if name = "set-speed" then some ⟨"Set fan speed", 1, true⟩
  else if name = "set-oscillate" then some ⟨"Toggle oscillation", 1, true⟩
  else if name = "set-monitor" then some ⟨"Toggle standby monitoring", 1, true⟩
  else if name = "set-temp" then some ⟨"Set temperature", 1, true⟩
  else if name = "set-focused-mode" then some ⟨"Set focused mode", 1, true⟩
  else if name = "get-current-state" then
    some ⟨"Request the current state from the device", 0, true⟩
  else if name = "monitor" then some ⟨"Monitor all messages", 0, true⟩
  else if name = "reset-filter" then
    some ⟨"Request reset of the filter life", 0, true⟩
  else none

/-- Embedding of validModel: the model string must be one of the three
supported model constants. -/
def validModel (model : String) : Bool :=
  model == TypeModelN475 || model == TypeModelN469 || model == TypeModelN455

/-- The outcome of main up to handler invocation: each exit case prints
a diagnostic and terminates with code 1 (usage exits additionally print
the usage text); the invoked case records the command name and the
positional arguments passed to its handler. -/
inductive MainResult where
  | exitNoCommand
  | exitInvalidCommand
  | exitBadArgCount
  | exitBadModel
  | exitBadAddress
  | exitConnectFailure : String → MainResult
  | invoked : String → List String → MainResult
  deriving Repr, DecidableEq

/-- Embedding of main after flag parsing: resolve the command, check the
argument count against the descriptor (the variadic sentinel -1 is less
than every possible count), and if the descriptor requires a connection,
check the model and address and connect before invoking the handler.
The connection attempt result is passed in as connectErr since the
transport is external. -/
def mainRun (argv : List String) (model host : String)
    (connectErr : Option String) : MainResult :=
  match argv with
  | [] => .exitNoCommand
  | cmdin :: rest =>
    match cmds cmdin with
    | none => .exitInvalidCommand
    | some c =>
      if (argv.length : Int) - 1 < c.nargs then .exitBadArgCount
      else if c.connect then
        if !validModel model then .exitBadModel
        else if host = "" then .exitBadAddress
        else
          match connectErr with
          | some e => .exitConnectFailure e
          | none => .invoked cmdin rest
      else .invoked cmdin rest

/-- The process exit code of a dispatch outcome: every pre-handler exit
in main terminates with code 1; when the handler is invoked the exit
code is determined later by the handler. -/
def MainResult.exitCode : MainResult → Option Nat
  | .invoked _ _ => none
  | _ => some 1

/-- A concrete callback channel whose first message carries an error,
used to exercise the get-current-state error path. -/
def errorFirstChan : Nat → MessageCallback := fun i =>
  if i = 0 then { Error := some "read failure", Message := .other [] }
  else { Error := none, Message := .other [] }

/-- C1: for every integer temperature input in 33 through 99 the
set-temp handler sends a state delta with heat mode HEAT and a target
value converted from Fahrenheit to the device scale; for input 0 it
sends heat mode OFF with no target value; every other integer input and
every non-integer input is rejected with an error (exit code 1) before
any state is sent. -/
theorem setTemp_correct (t : String) :
    (∀ v : Int, atoi t = some v → 33 ≤ v → v ≤ 99 →
      setTemp t = .ok { HeatMode := "HEAT",
                        HeatTarget := toString (ConvertTempFromFahr v) }) ∧
    (atoi t = some 0 → setTemp t = .ok { HeatMode := "OFF" }) ∧
    (∀ v : Int, atoi t = some v → v ≠ 0 → (v < 33 ∨ 99 < v) →
      ∃ msg, setTemp t = .error msg ∧ handlerExit (setTemp t) = 1) ∧
    (atoi t = none → ∃ msg, setTemp t = .error msg ∧ handlerExit (setTemp t) = 1) := by
  refine ⟨?_, ?_, ?_, ?_⟩
  · intro v hv h33 h99
    have h0 : ¬ v = 0 := by omega
    have hr : ¬ (v < 33 ∨ v > 99) := by omega
    simp [setTemp, hv, h0, hr]
  · intro hv
    simp [setTemp, hv]
  · intro v hv hne hout
    have hr : v < 33 ∨ v > 99 := by omega
    refine ⟨"Invalid fan temp " ++ t, ?_, ?_⟩ <;>
      simp [setTemp, hv, hne, hr, handlerExit]
  · intro hv
    refine ⟨"strconv.Atoi: parsing " ++ t ++ ": invalid syntax", ?_, ?_⟩ <;>
      simp [setTemp, hv, handlerExit]

/-- Witness for C1: the input 68 is in range and produces the heat-on
delta with the converted target. -/
theorem setTemp_correct_witness :
    atoi "68" = some 68 ∧ (33 : Int) ≤ 68 ∧ (68 : Int) ≤ 99 ∧
    setTemp "68" = .ok { HeatMode := "HEAT",
                         HeatTarget := toString (ConvertTempFromFahr 68) } :=
  ⟨by decide, by decide, by decide,
   (setTemp_correct "68").1 68 (by decide) (by decide) (by decide)⟩

/-- C4: every fan-speed argument whose integer value lies outside 1
through 10, and every non-integer argument, is rejected with an error
and exit code 1 before any SetState transmission; every integer value in
1 through 10 produces a state delta carrying the fan speed. -/
theorem setSpeed_correct (t : String) :
    (∀ v : Int, atoi t = some v → 1 ≤ v → v ≤ 10 →
      setSpeed t = .ok { FanSpeed := t }) ∧
    (∀ v : Int, atoi t = some v → (v < 1 ∨ 10 < v) →
      ∃ msg, setSpeed t = .error msg ∧ handlerExit (setSpeed t) = 1) ∧
    (atoi t = none → ∃ msg, setSpeed t = .error msg ∧ handlerExit (setSpeed t) = 1) := by
  refine ⟨?_, ?_, ?_⟩
  · intro v hv h1 h10
    have hr : ¬ (v < 1 ∨ v > 10) := by omega
    simp [setSpeed, hv, hr]
  · intro v hv hout
    have hr : v < 1 ∨ v > 10 := by omega
    refine ⟨"Invalid fan speed " ++ t, ?_, ?_⟩ <;>
      simp [setSpeed, hv, hr, handlerExit]
  · intro hv
    refine ⟨"strconv.Atoi: parsing " ++ t ++ ": invalid syntax", ?_, ?_⟩ <;>
      simp [setSpeed, hv, handlerExit]

/-- Witness for C4: input 5 is accepted with a delta carrying the speed;
input 11 is rejected with exit code 1. -/
theorem setSpeed_correct_witness :
    setSpeed "5" = .ok { FanSpeed := "5" } ∧
    (∃ msg, setSpeed "11" = .error msg ∧ handlerExit (setSpeed "11") = 1) :=
  ⟨(setSpeed_correct "5").1 5 (by decide) (by decide) (by decide),
   (setSpeed_correct "11").2.1 11 (by decide) (by decide)⟩

/-- C9: every state-mutation handler constructs a delta in which only
the fields relevant to its one command are set; every other exposed
field keeps the empty string. -/
theorem mutation_handlers_minimal_delta (a : String) (s : FanState) :
    (resetFilter = .ok s → onlyFieldsIn s ["ResetFilter"]) ∧
    (setFanMode a = .ok s → onlyFieldsIn s ["FanMode"]) ∧
    (setSpeed a = .ok s → onlyFieldsIn s ["FanSpeed"]) ∧
    (setOscillate a = .ok s → onlyFieldsIn s ["Oscillate"]) ∧
    (setMonitor a = .ok s → onlyFieldsIn s ["StandbyMonitoring"]) ∧
    (setFocusedMode a = .ok s → onlyFieldsIn s ["FocusedMode"]) ∧
    (setTemp a = .ok s → onlyFieldsIn s ["HeatMode", "HeatTarget"]) := by
  refine ⟨?_, ?_, ?_, ?_, ?_, ?_, ?_⟩
  · intro h
    simp only [resetFilter, Except.ok.injEq] at h
    subst h
    intro p hp hmem
    fin_cases hp <;> simp_all
  · intro h
    simp only [setFanMode] at h
    split at h
    · exact Except.noConfusion h
    · injection h with h
      subst h
      intro p hp hmem
      fin_cases hp <;> simp_all
  · intro h
    rcases hv : atoi a with _ | v <;> simp only [setSpeed, hv] at h
    · exact Except.noConfusion h
    · split_ifs at h
      injection h with h
      subst h
      intro p hp hmem
      fin_cases hp <;> simp_all
  · intro h
    simp only [setOscillate] at h
    split at h
    · exact Except.noConfusion h
    · injection h with h
      subst h
      intro p hp hmem
      fin_cases hp <;> simp_all
  · intro h
    simp only [setMonitor] at h
    split at h
    · exact Except.noConfusion h
    · injection h with h
      subst h
      intro p hp hmem
      fin_cases hp <;> simp_all
  · intro h
    simp only [setFocusedMode] at h
    split at h
    · exact Except.noConfusion h
    · injection h with h
      subst h
      intro p hp hmem
      fin_cases hp <;> simp_all
  · intro h
    rcases hv : atoi a with _ | v <;> simp only [setTemp, hv] at h
    · exact Except.noConfusion h
    · split_ifs at h
      · injection h with h
        subst h
        intro p hp hmem
        fin_cases hp <;> simp_all
      · injection h with h
        subst h
        intro p hp hmem
        fin_cases hp <;> simp_all

/-- Witness for C9: the set-speed delta for input 5 and the reset-filter
delta each leave every unrelated field empty. -/
theorem mutation_handlers_minimal_delta_witness :
    onlyFieldsIn { FanSpeed := "5" } ["FanSpeed"] ∧
    onlyFieldsIn { ResetFilter := "RSTF" } ["ResetFilter"] :=
  ⟨(mutation_handlers_minimal_delta "5" { FanSpeed := "5" }).2.2.1 rfl,
   (mutation_handlers_minimal_delta "" { ResetFilter := "RSTF" }).1 rfl⟩

/-- C2: the printed air-quality estimate is the maximum of the VOC and
particle readings, bucketed with label good up to 3, fair for 4 through
6, poor for 7 through 8, very poor above 8, with exactly these labels at
the boundary values 3, 6 and 8. -/
theorem airquality_bucketing (e : EnvironmentState) (est : Int)
    (hest : est = max (atoiOrZero e.UnknownVact) (atoiOrZero e.Particle)) :
    (est ≤ 3 → printAirQualityEstimate e = "Air Quality Estimate: good") ∧
    (4 ≤ est ∧ est ≤ 6 → printAirQualityEstimate e = "Air Quality Estimate: fair") ∧
    (7 ≤ est ∧ est ≤ 8 → printAirQualityEstimate e = "Air Quality Estimate: poor") ∧
    (8 < est → printAirQualityEstimate e = "Air Quality Estimate: very poor") ∧
    (est = 3 → printAirQualityEstimate e = "Air Quality Estimate: good") ∧
    (est = 6 → printAirQualityEstimate e = "Air Quality Estimate: fair") ∧
    (est = 8 → printAirQualityEstimate e = "Air Quality Estimate: poor") := by
  have hpr : printAirQualityEstimate e = "Air Quality Estimate: " ++ qualityLabel est := by
    rw [hest]; rfl
  refine ⟨?_, ?_, ?_, ?_, ?_, ?_, ?_⟩ <;> intro h <;> rw [hpr] <;>
    unfold qualityLabel
  · rw [if_pos h]; rfl
  · rw [if_neg (by omega), if_pos (by omega)]; rfl
  · rw [if_neg (by omega), if_neg (by omega), if_pos (by omega)]; rfl
  · rw [if_neg (by omega), if_neg (by omega), if_neg (by omega)]; rfl
  · rw [if_pos (by omega)]; rfl
  · rw [if_neg (by omega), if_pos (by omega)]; rfl
  · rw [if_neg (by omega), if_neg (by omega), if_pos (by omega)]; rfl

/-- Witness for C2: readings 3 and 2 give estimate 3 at the first
boundary, which is reported good. -/
theorem airquality_bucketing_witness :
    printAirQualityEstimate { UnknownVact := "3", Particle := "2" } =
      "Air Quality Estimate: good" :=
  (airquality_bucketing { UnknownVact := "3", Particle := "2" } 3
    (by decide)).2.2.2.2.1 rfl

/-- C10: a sensor reading that fails integer parsing contributes 0 to
the estimate (the parse error is discarded), so an environment state
whose two readings are both unparsable is always reported good. -/
theorem unparsable_readings_report_good (e : EnvironmentState)
    (h1 : atoi e.UnknownVact = none) (h2 : atoi e.Particle = none) :
    atoiOrZero e.UnknownVact = 0 ∧ atoiOrZero e.Particle = 0 ∧
    printAirQualityEstimate e = "Air Quality Estimate: good" := by
  have g1 : atoiOrZero e.UnknownVact = 0 := by simp [atoiOrZero, h1]
  have g2 : atoiOrZero e.Particle = 0 := by simp [atoiOrZero, h2]
  refine ⟨g1, g2, ?_⟩
  simp only [printAirQualityEstimate, g1, g2]
  rfl

/-- Witness for C10: the empty string and a non-numeric string both fail
to parse, and the resulting report is good. -/
theorem unparsable_readings_report_good_witness :
    atoi "" = none ∧ atoi "abc" = none ∧
    printAirQualityEstimate { UnknownVact := "", Particle := "abc" } =
      "Air Quality Estimate: good" :=
  ⟨rfl, by decide,
   (unparsable_readings_report_good { UnknownVact := "", Particle := "abc" }
     rfl (by decide)).2.2⟩

/-- C5: the renderer produces no output line for any field holding its
kind's zero or empty value, its output consists exactly of the formatted
non-empty fields, and the filter-life percentage divides the raw counter
by the fixed constant 4300, which is non-zero, so no division by zero
can occur. -/
theorem renderer_skips_empty_no_div_zero (fields : List (String × GoValue)) :
    (∀ (name : String) (v : GoValue), isEmptyValue v = true →
      printField name v = none) ∧
    printStruct fields =
      (fields.filter (fun p => !isEmptyValue p.2)).map
        (fun p => formatField p.1 p.2) ∧
    filterLifeMax = 4300 ∧ (filterLifeMax : ℚ) ≠ 0 ∧
    (∀ v : Int, filterLifePercent v =
      round (((v : ℚ) / 4300) * 100)) := by
  refine ⟨?_, ?_, rfl, by norm_num [filterLifeMax], fun v => rfl⟩
  · intro name v hempty
    simp [printField, hempty]
  · induction fields with
    | nil => rfl
    | cons p rest ih =>
      by_cases hp : isEmptyValue p.2 <;>
        simp [printStruct, printField, List.filter_cons, hp] at ih ⊢ <;>
        exact ih

/-- Witness for C5: an empty string field is skipped by the renderer. -/
theorem renderer_skips_empty_witness :
    isEmptyValue (GoValue.str "") = true ∧
    printField "Temperature" (GoValue.str "") = none :=
  ⟨by decide,
   (renderer_skips_empty_no_div_zero []).1 "Temperature" (GoValue.str "")
     (by decide)⟩

/-- C3: after issuing its single state request, get-current-state reads
exactly two messages from the callback channel; if the first message
carries an error, that error is surfaced and the process terminates
after a single read, never touching the second message. -/
theorem getState_two_reads_first_error (chan : Nat → MessageCallback) :
    (getState none chan).requestsIssued = 1 ∧
    (∀ e, (chan 0).Error = some e →
      (getState none chan).msgsRead = 1 ∧
      (getState none chan).exitErr = some e) ∧
    ((chan 0).Error = none →
      (getState none chan).msgsRead = 2 ∧
      (getState none chan).exitErr = (chan 1).Error) := by
  refine ⟨?_, ?_, ?_⟩
  · rcases h0 : (chan 0).Error with _ | e <;>
      rcases h1 : (chan 1).Error with _ | f <;>
      simp [getState, getStateLoop, h0, h1]
  · intro e h0
    constructor <;> simp [getState, getStateLoop, h0]
  · intro h0
    rcases h1 : (chan 1).Error with _ | f <;>
      constructor <;> simp [getState, getStateLoop, h0, h1]

/-- Witness for C3: on a channel whose first message carries an error,
get-current-state reads one message and surfaces that error. -/
theorem getState_two_reads_first_error_witness :
    (errorFirstChan 0).Error = some "read failure" ∧
    (getState none errorFirstChan).msgsRead = 1 ∧
    (getState none errorFirstChan).exitErr = some "read failure" :=
  ⟨rfl, (getState_two_reads_first_error errorFirstChan).2.1 "read failure" rfl⟩

/-- C8: over any finite prefix of the callback channel, the monitor loop
processes every message; a message carrying an error has the error
written to the error stream and the loop continues, so a message error
never terminates the loop. -/
theorem monitor_continues_past_errors (msgs : List MessageCallback) :
    (monitor msgs).processed = msgs.length ∧
    (∀ m ∈ msgs, ∀ e, m.Error = some e →
      ("error: " ++ e) ∈ (monitor msgs).stderrLines) := by
  induction msgs with
  | nil => exact ⟨rfl, by simp⟩
  | cons msg rest ih =>
    rcases h0 : msg.Error with _ | e <;>
      refine ⟨by simp [monitor, h0, ih.1], ?_⟩ <;>
      intro m hm f hf <;>
      rcases List.mem_cons.mp hm with hm | hm
    · subst hm
      rw [h0] at hf
      exact Option.noConfusion hf
    · simp [monitor, h0]
      exact ih.2 m hm f hf
    · subst hm
      rw [h0] at hf
      injection hf with hf
      subst hf
      simp [monitor, h0]
    · simp [monitor, h0]
      exact Or.inr (Or.inr (ih.2 m hm f hf))

/-- Witness for C8: a two-message prefix whose first message errors is
fully processed and the error appears on the error stream. -/
theorem monitor_continues_past_errors_witness :
    (monitor [{ Error := some "oops", Message := .other [] },
              { Error := none, Message := .other [] }]).processed = 2 ∧
    ("error: " ++ "oops") ∈
      (monitor [{ Error := some "oops", Message := .other [] },
                { Error := none, Message := .other [] }]).stderrLines :=
  ⟨(monitor_continues_past_errors _).1,
   (monitor_continues_past_errors
     [{ Error := some "oops", Message := .other [] },
      { Error := none, Message := .other [] }]).2
     { Error := some "oops", Message := .other [] } (by simp) "oops" rfl⟩

/-- C6: the dispatcher invokes the handler only when the number of
arguments after the command name is at least the descriptor's required
count; a variadic descriptor never fails the count check, accepting any
number of arguments including zero; an insufficient count exits without
invoking the handler. -/
theorem dispatcher_arg_count (name model host : String)
    (rest : List String) (ce : Option String) (c : Cmd)
    (hc : cmds name = some c) :
    (∀ n args2, mainRun (name :: rest) model host ce = .invoked n args2 →
      c.nargs ≤ (rest.length : Int)) ∧
    (c.nargs = variadic →
      mainRun (name :: rest) model host ce ≠ .exitBadArgCount) ∧
    ((rest.length : Int) < c.nargs →
      mainRun (name :: rest) model host ce = .exitBadArgCount ∧
      (mainRun (name :: rest) model host ce).exitCode = some 1) := by
  have harg : ((name :: rest).length : Int) - 1 = (rest.length : Int) := by
    simp
  by_cases hlt : (rest.length : Int) < c.nargs
  · have hrun : mainRun (name :: rest) model host ce = .exitBadArgCount := by
      simp only [mainRun, hc]
      rw [if_pos (by rw [harg]; exact hlt)]
    refine ⟨?_, ?_, fun _ => ⟨hrun, by rw [hrun]; rfl⟩⟩
    · intro n args2 hinv
      rw [hrun] at hinv
      exact MainResult.noConfusion hinv
    · intro hvar
      exfalso
      rw [hvar] at hlt
      simp only [variadic] at hlt
      omega
  · have hge : c.nargs ≤ (rest.length : Int) := by omega
    refine ⟨fun n args2 _ => hge, ?_, fun hlt2 => absurd hlt2 hlt⟩
    intro _ hbad
    simp only [mainRun, hc] at hbad
    rw [if_neg (by rw [harg]; exact hlt)] at hbad
    by_cases hcon : c.connect <;> simp only [hcon] at hbad
    · by_cases hm : validModel model <;> simp [hm] at hbad
      by_cases hh : host = "" <;> simp [hh] at hbad
      rcases ce with _ | e <;> simp at hbad
    · simp at hbad

/-- Witness for C6: the variadic bootstrap command accepts zero
arguments, and set-speed with zero arguments fails the count check. -/
theorem dispatcher_arg_count_witness :
    mainRun ["bootstrap"] "475" "tcp://h" none ≠ .exitBadArgCount ∧
    mainRun ["set-speed"] "475" "tcp://h" none = .exitBadArgCount :=
  ⟨(dispatcher_arg_count "bootstrap" "475" "tcp://h" [] none
      ⟨"Bootstrap a new device", variadic, true⟩ rfl).2.1 rfl,
   ((dispatcher_arg_count "set-speed" "475" "tcp://h" [] none
      ⟨"Set fan speed", 1, true⟩ rfl).2.2 (by decide)).1⟩

/-- C7: for a command whose descriptor requires a connection, an
unsupported model identifier or an empty address makes the program exit
with code 1 before the handler is invoked; a command not requiring a
connection is invoked without these checks. -/
theorem dispatcher_connect_checks (name model host : String)
    (rest : List String) (ce : Option String) (c : Cmd)
    (hc : cmds name = some c)
    (hargs : c.nargs ≤ (rest.length : Int)) :
    (c.connect = true → validModel model = false →
      mainRun (name :: rest) model host ce = .exitBadModel ∧
      (mainRun (name :: rest) model host ce).exitCode = some 1) ∧
    (c.connect = true → validModel model = true → host = "" →
      mainRun (name :: rest) model host ce = .exitBadAddress ∧
      (mainRun (name :: rest) model host ce).exitCode = some 1) ∧
    (c.connect = false →
      mainRun (name :: rest) model host ce = .invoked name rest) := by
  have harg : ¬ (((name :: rest).length : Int) - 1 < c.nargs) := by
    simp only [List.length_cons]
    push_cast
    omega
  refine ⟨?_, ?_, ?_⟩
  · intro hcon hm
    have hrun : mainRun (name :: rest) model host ce = .exitBadModel := by
      simp only [mainRun, hc]
      rw [if_neg harg]
      simp [hcon, hm]
    exact ⟨hrun, by rw [hrun]; rfl⟩
  · intro hcon hm hh
    have hrun : mainRun (name :: rest) model host ce = .exitBadAddress := by
      simp only [mainRun, hc]
      rw [if_neg harg]
      simp [hcon, hm, hh]
    exact ⟨hrun, by rw [hrun]; rfl⟩
  · intro hcon
    simp only [mainRun, hc]
    rw [if_neg harg]
    simp [hcon]

/-- Witness for C7: monitor with an unsupported model exits before its
handler; discover needs neither model nor address. -/
theorem dispatcher_connect_checks_witness :
    mainRun ["monitor"] "bad" "tcp://h" none = .exitBadModel ∧
    mainRun ["discover"] "" "" none = .invoked "discover" [] :=
  ⟨((dispatcher_connect_checks "monitor" "bad" "tcp://h" [] none
      ⟨"Monitor all messages", 0, true⟩ rfl (by decide)).1 rfl (by decide)).1,
   (dispatcher_connect_checks "discover" "" "" [] none
      ⟨"Find all Dyson Purifiers", 0, false⟩ rfl (by decide)).2.2 rfl⟩

end Dyslink
